import Mathlib

/-!
Verification development for the Taskcluster auth service's S3 temporary
credentials endpoint (services/auth/src/aws.js, handler awsS3Credentials).

Strings are modelled as lists of characters.  The endpoint's policy
templating uses the JavaScript method String.prototype.replace with a plain
string pattern, which rewrites only the first occurrence of the pattern and
interprets dollar sequences in the replacement string; both behaviours are
modelled faithfully below.
-/

/-- Test whether the first list is an initial segment of the second. -/
def leads : List Char → List Char → Bool
  | [], _ => true
  | _ :: _, [] => false
  | a :: as, b :: bs => if a = b then leads as bs else false

/-- Locate the first occurrence of a pattern, returning the part of the
string before the occurrence and the part after it. -/
def findFirst (p : List Char) : List Char → Option (List Char × List Char)
  | [] => if leads p [] then some ([], []) else none
  | c :: rest =>
    if leads p (c :: rest) then some ([], (c :: rest).drop p.length)
    else
      match findFirst p rest with
      | some (b, a) => some (c :: b, a)
      | none => none

/-- The replacement-template expansion of ECMAScript GetSubstitution for a
plain string pattern: a dollar followed by dollar, ampersand, backquote or
quote is special, anything else is literal text. -/
def getSubstitution (m b a : List Char) : List Char → List Char
  | [] => []
  | c :: rest =>
    if c = '$' then
      match rest with
      | [] => [c]
      | d :: rest2 =>
        if d = '$' then '$' :: getSubstitution m b a rest2
        else if d = '&' then m ++ getSubstitution m b a rest2
        else if d = Char.ofNat 96 then b ++ getSubstitution m b a rest2
        else if d = Char.ofNat 39 then a ++ getSubstitution m b a rest2
        else c :: d :: getSubstitution m b a rest2
    else c :: getSubstitution m b a rest

/-- JavaScript String.prototype.replace with a plain string pattern: rewrite
the first occurrence of the pattern, expanding dollar sequences in the
replacement. -/
def jsReplace (s p repl : List Char) : List Char :=
  match findFirst p s with
  | none => s
  | some (b, a) => b ++ getSubstitution p b a repl ++ a

/-- Resource of the ReadWriteObjectsUnderPrefix statement:
the source template with bucket and prefix substituted by jsReplace. -/
def objectResource (bucket pfx : List Char) : List Char :=
  jsReplace
    (jsReplace ("arn:aws:s3:::\x7b\x7bbucket\x7d\x7d/\x7b\x7bprefix\x7d\x7d*".toList)
      ("\x7b\x7bbucket\x7d\x7d".toList) bucket)
    ("\x7b\x7bprefix\x7d\x7d".toList) pfx

/-- Resource of the ListObjectsUnderPrefix and GetBucketLocation statements:
the bucket-root template with the bucket substituted by jsReplace. -/
def bucketResource (bucket : List Char) : List Char :=
  jsReplace ("arn:aws:s3:::\x7b\x7bbucket\x7d\x7d".toList) ("\x7b\x7bbucket\x7d\x7d".toList) bucket

/-- StringLike value of the ListObjectsUnderPrefix condition on s3:prefix:
the prefix template with the prefix substituted by jsReplace. -/
def listCondition (pfx : List Char) : List Char :=
  jsReplace ("\x7b\x7bprefix\x7d\x7d*".toList) ("\x7b\x7bprefix\x7d\x7d".toList) pfx

example : objectResource ("mybucket".toList) ("team/".toList) =
    ("arn:aws:s3:::mybucket/team/*".toList) := by decide

example : objectResource ("\x7b\x7bprefix\x7d\x7d".toList) ("p".toList) =
    ("arn:aws:s3:::p/\x7b\x7bprefix\x7d\x7d*".toList) := by decide

example : bucketResource ("mybucket".toList) = ("arn:aws:s3:::mybucket".toList) := by decide

example : listCondition ("team/".toList) = ("team/*".toList) := by decide

/-- The levelIsReadOnly flag the handler computes when calling req.authorize. -/
def levelIsReadOnly (level : List Char) : Bool :=
  decide (level = ("read-only".toList))

/-- The context object passed to req.authorize. -/
structure AuthorizeParams where
  level : List Char
  bucket : List Char
  pfx : List Char
  levelIsReadOnly : Bool
deriving DecidableEq

/-- One statement of the IAM policy document.  The Condition field models
the optional Condition.StringLike value on the s3:prefix key. -/
structure PolicyStatement where
  Sid : List Char
  Effect : List Char
  Action : List (List Char)
  Resource : List (List Char)
  Condition : Option (List (List Char))
deriving DecidableEq

/-- The request submitted to sts.getFederationToken.  The source serializes
the policy document to JSON; it is kept structured here as the version
string together with the statement list. -/
structure FederationTokenRequest where
  Name : List Char
  PolicyVersion : List Char
  Statements : List PolicyStatement
  DurationSeconds : Nat
deriving DecidableEq

/-- The credentials returned by sts.getFederationToken. -/
structure Credentials where
  AccessKeyId : List Char
  SecretAccessKey : List Char
  SessionToken : List Char
  Expiration : List Char
deriving DecidableEq

/-- External calls the handler makes, in order. -/
inductive TraceEvent
  | authorize (params : AuthorizeParams)
  | getFederationToken (req : FederationTokenRequest)
deriving DecidableEq

/-- A JSON value, as much of it as the endpoint's response bodies need. -/
inductive JVal
  | str (s : List Char)
  | obj (fields : List (List Char × JVal))

/-- How the handler's execution ends. -/
inductive Outcome
  | inputError (message : List Char)
  | authorizationError
  | success (body : JVal)

/-- Actions of the ReadWriteObjectsUnderPrefix statement: s3:GetObject
always, with s3:PutObject and s3:DeleteObject appended for read-write. -/
def objectActions (level : List Char) : List (List Char) :=
  ("s3:GetObject".toList) ::
    (if level = ("read-write".toList) then [("s3:PutObject".toList), ("s3:DeleteObject".toList)]
     else [])

/-- The ReadWriteObjectsUnderPrefix statement. -/
def objectAccessStatement (level bucket pfx : List Char) : PolicyStatement :=
  { Sid := ("ReadWriteObjectsUnderPrefix".toList)
    Effect := ("Allow".toList)
    Action := objectActions level
    Resource := [objectResource bucket pfx]
    Condition := none }

/-- The ListObjectsUnderPrefix statement. -/
def listAccessStatement (bucket pfx : List Char) : PolicyStatement :=
  { Sid := ("ListObjectsUnderPrefix".toList)
    Effect := ("Allow".toList)
    Action := [("s3:ListBucket".toList)]
    Resource := [bucketResource bucket]
    Condition := some [listCondition pfx] }

/-- The GetBucketLocation statement. -/
def locationAccessStatement (bucket : List Char) : PolicyStatement :=
  { Sid := ("GetBucketLocation".toList)
    Effect := ("Allow".toList)
    Action := [("s3:GetBucketLocation".toList)]
    Resource := [bucketResource bucket]
    Condition := none }

/-- The full sts.getFederationToken request the handler submits. -/
def stsRequest (level bucket pfx : List Char) : FederationTokenRequest :=
  { Name := ("TemporaryS3ReadWriteCredentials".toList)
    PolicyVersion := ("2012-10-17".toList)
    Statements :=
      [objectAccessStatement level bucket pfx,
       listAccessStatement bucket pfx,
       locationAccessStatement bucket]
    DurationSeconds := 60 * 60 }

/-- Modelled from the spec: reportError's message rendering lives in the
routing framework, outside this service's source; the spec requires an
InputError naming the offending level value, so the message is the source
template with the value spliced in. -/
def levelErrorMessage (level : List Char) : List Char :=
  ("the 'level' URL parameter must be read-only or read-write; got ".toList) ++ level

/-- Modelled from the spec: reportError's message rendering lives in the
routing framework, outside this service's source; the spec requires an
InputError quoting the prefix, so the message is the source template with
the prefix spliced in. -/
def prefixErrorMessage (pfx : List Char) : List Char :=
  ("The `prefix` may not start with a slash `/`; got `".toList) ++ pfx ++ ("`".toList)

/-- The context object built at the handler's req.authorize call. -/
def authParams (level bucket pfx : List Char) : AuthorizeParams :=
  { level := level
    bucket := bucket
    pfx := pfx
    levelIsReadOnly := levelIsReadOnly level }

/-- The EC2-metadata-compatible response body, selected by
format=iam-role-compat.  dj models the JavaScript Date round-trip
new Date(x).toJSON() applied to the credential expiration; now models
new Date().toJSON(). -/
def iamRoleCompatBody (creds : Credentials) (now : List Char)
    (dj : List Char → List Char) : JVal :=
  JVal.obj
    [(("Code".toList), JVal.str ("Success".toList)),
     (("Type".toList), JVal.str ("AWS-HMAC".toList)),
     (("LastUpdated".toList), JVal.str now),
     (("AccessKeyId".toList), JVal.str creds.AccessKeyId),
     (("SecretAccessKey".toList), JVal.str creds.SecretAccessKey),
     (("Token".toList), JVal.str creds.SessionToken),
     (("Expiration".toList), JVal.str (dj creds.Expiration))]

/-- The native response body. -/
def nativeBody (creds : Credentials) (dj : List Char → List Char) : JVal :=
  JVal.obj
    [(("credentials".toList),
      JVal.obj
        [(("accessKeyId".toList), JVal.str creds.AccessKeyId),
         (("secretAccessKey".toList), JVal.str creds.SecretAccessKey),
         (("sessionToken".toList), JVal.str creds.SessionToken)]),
     (("expires".toList), JVal.str (dj creds.Expiration))]

/-- The awsS3Credentials handler of services/auth/src/aws.js, as a function
from the request inputs and the behaviour of the two external collaborators
(the authorizer and sts.getFederationToken) to the ordered list of external
calls made and the outcome.  The source's control flow is kept exactly:
level validation, then req.authorize, then the slash-prefix check, then
policy construction and the sts call, then response formatting. -/
def awsS3Credentials (level bucket pfx : List Char) (fmt : Option (List Char))
    (authOk : Bool) (creds : Credentials) (now : List Char)
    (dj : List Char → List Char) : List TraceEvent × Outcome :=
  if level ≠ ("read-write".toList) ∧ level ≠ ("read-only".toList) then
    ([], Outcome.inputError (levelErrorMessage level))
  else if authOk = false then
    ([TraceEvent.authorize (authParams level bucket pfx)], Outcome.authorizationError)
  else if pfx.head? = some '/' then
    ([TraceEvent.authorize (authParams level bucket pfx)],
     Outcome.inputError (prefixErrorMessage pfx))
  else
    ([TraceEvent.authorize (authParams level bucket pfx),
      TraceEvent.getFederationToken (stsRequest level bucket pfx)],
     if fmt = some ("iam-role-compat".toList) then
       Outcome.success (iamRoleCompatBody creds now dj)
     else
       Outcome.success (nativeBody creds dj))

/-- Keys of a JSON object, in order. -/
def topKeys : JVal → List (List Char)
  | JVal.str _ => []
  | JVal.obj fields => fields.map Prod.fst

/-- Lookup of a key in a field list. -/
def lookupPairs (k : List Char) : List (List Char × JVal) → Option JVal
  | [] => none
  | (k2, v) :: rest => if k2 = k then some v else lookupPairs k rest

/-- Lookup of a top-level key in a JSON object. -/
def lookupKey (k : List Char) : JVal → Option JVal
  | JVal.str _ => none
  | JVal.obj fields => lookupPairs k fields

/-- The required-scope expression declared on the endpoint. -/
inductive ScopeExpr
  | single (scope : List Char)
  | anyOf (scopes : List (List Char))
deriving DecidableEq

/-- Modelled from the spec: the routing framework instantiates the scope
templates declared on the endpoint by substituting the bucket parameter
and the prefix parameter verbatim into the template strings. -/
def readOnlyScope (bucket pfx : List Char) : List Char :=
  ("auth:aws-s3:read-only:".toList) ++ bucket ++ ("/".toList) ++ pfx

/-- Modelled from the spec: the routing framework instantiates the scope
templates declared on the endpoint by substituting the bucket parameter
and the prefix parameter verbatim into the template strings. -/
def readWriteScope (bucket pfx : List Char) : List Char :=
  ("auth:aws-s3:read-write:".toList) ++ bucket ++ ("/".toList) ++ pfx

/-- The endpoint's scopes declaration: if levelIsReadOnly then AnyOf the
read-only and read-write scopes, else exactly the read-write scope. -/
def requiredScopes (isReadOnly : Bool) (bucket pfx : List Char) : ScopeExpr :=
  if isReadOnly then
    ScopeExpr.anyOf [readOnlyScope bucket pfx, readWriteScope bucket pfx]
  else
    ScopeExpr.single (readWriteScope bucket pfx)

theorem getSubstitution_no_dollar (m b a : List Char) :
    ∀ repl : List Char, (∀ c ∈ repl, c ≠ '$') → getSubstitution m b a repl = repl := by
  intro repl
  induction repl with
  | nil => intro _; rfl
  | cons c rest ih =>
    intro h
    have hc : ¬ (c = '$') := h c (List.mem_cons_self c rest)
    unfold getSubstitution
    rw [if_neg hc]
    rw [ih (fun d hd => h d (List.mem_cons_of_mem c hd))]

theorem jsReplace_of_findFirst (s p repl b a : List Char)
    (h : findFirst p s = some (b, a)) (hr : ∀ c ∈ repl, c ≠ '$') :
    jsReplace s p repl = b ++ repl ++ a := by
  unfold jsReplace
  rw [h]
  dsimp only
  rw [getSubstitution_no_dollar _ _ _ repl hr]

theorem findFirst_append_of_ne (p : List Char) (pc : Char) (hp : p.head? = some pc) :
    ∀ u v : List Char, (∀ c ∈ u, c ≠ pc) →
      findFirst p (u ++ v) = (findFirst p v).map (fun ba => (u ++ ba.1, ba.2)) := by
  cases p with
  | nil => simp at hp
  | cons pc2 pt =>
    simp only [List.head?_cons, Option.some.injEq] at hp
    subst hp
    intro u v
    induction u with
    | nil =>
      intro _
      rcases hv : findFirst (pc2 :: pt) v with _ | ⟨b, a⟩ <;> simp [hv]
    | cons c u2 ih =>
      intro h
      have hc : ¬ (pc2 = c) := fun he => h c (List.mem_cons_self c u2) he.symm
      have hl : ¬ (leads (pc2 :: pt) (c :: (u2 ++ v)) = true) := by
        simp [leads, if_neg hc]
      rw [List.cons_append]
      simp only [findFirst, if_neg hl]
      rw [ih (fun d hd => h d (List.mem_cons_of_mem c hd))]
      rcases hv : findFirst (pc2 :: pt) v with _ | ⟨b, a⟩ <;> simp [hv]

theorem findFirst_bucket_template :
    findFirst ("\x7b\x7bbucket\x7d\x7d".toList)
      ("arn:aws:s3:::\x7b\x7bbucket\x7d\x7d/\x7b\x7bprefix\x7d\x7d*".toList) =
      some (("arn:aws:s3:::".toList), ("/\x7b\x7bprefix\x7d\x7d*".toList)) := by decide

theorem objectResource_eq (bucket pfx : List Char)
    (hb : ∀ c ∈ bucket, c ≠ '$') (hbl : ∀ c ∈ bucket, c ≠ Char.ofNat 123)
    (hp : ∀ c ∈ pfx, c ≠ '$') :
    objectResource bucket pfx =
      ("arn:aws:s3:::".toList) ++ bucket ++ ("/".toList) ++ pfx ++ ("*".toList) := by
  have h1 : jsReplace ("arn:aws:s3:::\x7b\x7bbucket\x7d\x7d/\x7b\x7bprefix\x7d\x7d*".toList)
      ("\x7b\x7bbucket\x7d\x7d".toList) bucket =
      (("arn:aws:s3:::".toList) ++ bucket) ++ ("/\x7b\x7bprefix\x7d\x7d*".toList) := by
    rw [jsReplace_of_findFirst _ _ _ _ _ findFirst_bucket_template hb, List.append_assoc]
  have hpre : ∀ c ∈ ("arn:aws:s3:::".toList), c ≠ Char.ofNat 123 := by decide
  have hu : ∀ c ∈ ("arn:aws:s3:::".toList) ++ bucket, c ≠ Char.ofNat 123 := by
    intro c hc
    rcases List.mem_append.mp hc with h | h
    · exact hpre c h
    · exact hbl c h
  have h3 : findFirst ("\x7b\x7bprefix\x7d\x7d".toList)
      ((("arn:aws:s3:::".toList) ++ bucket) ++ ("/\x7b\x7bprefix\x7d\x7d*".toList)) =
      some ((("arn:aws:s3:::".toList) ++ bucket) ++ ("/".toList), ("*".toList)) := by
    rw [findFirst_append_of_ne ("\x7b\x7bprefix\x7d\x7d".toList) (Char.ofNat 123) (by decide)
      _ _ hu]
    rw [show findFirst ("\x7b\x7bprefix\x7d\x7d".toList) ("/\x7b\x7bprefix\x7d\x7d*".toList) =
      some (("/".toList), ("*".toList)) by decide]
    rfl
  unfold objectResource
  rw [h1, jsReplace_of_findFirst _ _ _ _ _ h3 hp]

theorem bucketResource_eq (bucket : List Char) (hb : ∀ c ∈ bucket, c ≠ '$') :
    bucketResource bucket = ("arn:aws:s3:::".toList) ++ bucket := by
  have hf : findFirst ("\x7b\x7bbucket\x7d\x7d".toList)
      ("arn:aws:s3:::\x7b\x7bbucket\x7d\x7d".toList) =
      some (("arn:aws:s3:::".toList), ([] : List Char)) := by decide
  unfold bucketResource
  rw [jsReplace_of_findFirst _ _ _ _ _ hf hb]
  simp

theorem listCondition_eq (pfx : List Char) (hp : ∀ c ∈ pfx, c ≠ '$') :
    listCondition pfx = pfx ++ ("*".toList) := by
  have hf : findFirst ("\x7b\x7bprefix\x7d\x7d".toList) ("\x7b\x7bprefix\x7d\x7d*".toList) =
      some (([] : List Char), ("*".toList)) := by decide
  unfold listCondition
  rw [jsReplace_of_findFirst _ _ _ _ _ hf hp]
  simp

theorem run_trace_sts (level bucket pfx : List Char) (fmt : Option (List Char))
    (authOk : Bool) (creds : Credentials) (now : List Char) (dj : List Char → List Char)
    (r : FederationTokenRequest)
    (h : TraceEvent.getFederationToken r ∈
      (awsS3Credentials level bucket pfx fmt authOk creds now dj).1) :
    r = stsRequest level bucket pfx ∧
      (level = ("read-write".toList) ∨ level = ("read-only".toList)) ∧
      authOk = true ∧ pfx.head? ≠ some '/' := by
  unfold awsS3Credentials at h
  by_cases h1 : level ≠ ("read-write".toList) ∧ level ≠ ("read-only".toList)
  · rw [if_pos h1] at h
    simp at h
  · rw [if_neg h1] at h
    by_cases h2 : authOk = false
    · rw [if_pos h2] at h
      simp at h
    · rw [if_neg h2] at h
      by_cases h3 : pfx.head? = some '/'
      · rw [if_pos h3] at h
        simp at h
      · rw [if_neg h3] at h
        simp at h
        refine ⟨h, ?_, ?_, h3⟩
        · rcases not_and_or.mp h1 with h4 | h4
          · exact Or.inl (not_not.mp h4)
          · exact Or.inr (not_not.mp h4)
        · cases authOk with
          | false => exact absurd rfl h2
          | true => rfl

theorem run_outcome_success (level bucket pfx : List Char) (fmt : Option (List Char))
    (authOk : Bool) (creds : Credentials) (now : List Char) (dj : List Char → List Char)
    (body : JVal)
    (h : (awsS3Credentials level bucket pfx fmt authOk creds now dj).2 = Outcome.success body) :
    body = if fmt = some ("iam-role-compat".toList) then iamRoleCompatBody creds now dj
      else nativeBody creds dj := by
  unfold awsS3Credentials at h
  by_cases h1 : level ≠ ("read-write".toList) ∧ level ≠ ("read-only".toList)
  · rw [if_pos h1] at h
    simp at h
  · rw [if_neg h1] at h
    by_cases h2 : authOk = false
    · rw [if_pos h2] at h
      simp at h
    · rw [if_neg h2] at h
      by_cases h3 : pfx.head? = some '/'
      · rw [if_pos h3] at h
        simp at h
      · rw [if_neg h3] at h
        have h4 : (if fmt = some ("iam-role-compat".toList) then
            Outcome.success (iamRoleCompatBody creds now dj)
          else Outcome.success (nativeBody creds dj)) = Outcome.success body := h
        by_cases h5 : fmt = some ("iam-role-compat".toList)
        · rw [if_pos h5] at h4
          rw [if_pos h5]
          cases h4
          rfl
        · rw [if_neg h5] at h4
          rw [if_neg h5]
          cases h4
          rfl

theorem run_valid_eq (level bucket pfx : List Char) (fmt : Option (List Char))
    (creds : Credentials) (now : List Char) (dj : List Char → List Char)
    (hlevel : level = ("read-write".toList) ∨ level = ("read-only".toList))
    (hpfx : ¬ (pfx.head? = some '/')) :
    awsS3Credentials level bucket pfx fmt true creds now dj =
      ([TraceEvent.authorize (authParams level bucket pfx),
        TraceEvent.getFederationToken (stsRequest level bucket pfx)],
       if fmt = some ("iam-role-compat".toList) then
         Outcome.success (iamRoleCompatBody creds now dj)
       else Outcome.success (nativeBody creds dj)) := by
  have h1 : ¬ (level ≠ ("read-write".toList) ∧ level ≠ ("read-only".toList)) := by
    rcases hlevel with he | he <;> subst he <;> decide
  unfold awsS3Credentials
  rw [if_neg h1, if_neg (by decide : ¬ (true = false)), if_neg hpfx]

/-- Concrete credentials used for closed instances of the theorems below. -/
def creds0 : Credentials :=
  { AccessKeyId := ("AKID".toList)
    SecretAccessKey := ("SECRET".toList)
    SessionToken := ("TOKEN".toList)
    Expiration := ("2026-01-01T00:00:00Z".toList) }

/-- Claim C1: for every request that reaches the credential exchange, the
object-access statement's actions are exactly s3:GetObject when level is
read-only and exactly s3:GetObject, s3:PutObject, s3:DeleteObject when
level is read-write, and no statement of the submitted policy ever
contains the ACL-mutating action s3:PutObjectAcl. -/
theorem c1_object_actions (level bucket pfx : List Char) (fmt : Option (List Char))
    (authOk : Bool) (creds : Credentials) (now : List Char) (dj : List Char → List Char)
    (r : FederationTokenRequest)
    (h : TraceEvent.getFederationToken r ∈
      (awsS3Credentials level bucket pfx fmt authOk creds now dj).1) :
    (level = ("read-only".toList) →
      (r.Statements.head?).map PolicyStatement.Action = some [("s3:GetObject".toList)]) ∧
    (level = ("read-write".toList) →
      (r.Statements.head?).map PolicyStatement.Action =
        some [("s3:GetObject".toList), ("s3:PutObject".toList), ("s3:DeleteObject".toList)]) ∧
    (∀ s ∈ r.Statements, ∀ act ∈ s.Action, act ≠ ("s3:PutObjectAcl".toList)) := by
  obtain ⟨hr, hlevel, -, -⟩ := run_trace_sts level bucket pfx fmt authOk creds now dj r h
  subst hr
  refine ⟨?_, ?_, ?_⟩
  · intro he
    subst he
    rfl
  · intro he
    subst he
    rfl
  · intro s hs act ha
    have hstat : (stsRequest level bucket pfx).Statements =
        [objectAccessStatement level bucket pfx, listAccessStatement bucket pfx,
         locationAccessStatement bucket] := rfl
    rw [hstat] at hs
    simp only [List.mem_cons, List.not_mem_nil, or_false] at hs
    have hro : objectActions ("read-only".toList) = [("s3:GetObject".toList)] := by decide
    have hrw2 : objectActions ("read-write".toList) =
        [("s3:GetObject".toList), ("s3:PutObject".toList), ("s3:DeleteObject".toList)] := by
      decide
    rcases hs with h1 | h1 | h1
    · subst h1
      have ha2 : act ∈ objectActions level := ha
      rcases hlevel with he | he <;> subst he
      · rw [hrw2] at ha2
        simp only [List.mem_cons, List.not_mem_nil, or_false] at ha2
        rcases ha2 with he2 | he2 | he2 <;> subst he2 <;> decide
      · rw [hro] at ha2
        simp only [List.mem_cons, List.not_mem_nil, or_false] at ha2
        subst ha2
        decide
    · subst h1
      have ha2 : act ∈ [("s3:ListBucket".toList)] := ha
      simp only [List.mem_cons, List.not_mem_nil, or_false] at ha2
      subst ha2
      decide
    · subst h1
      have ha2 : act ∈ [("s3:GetBucketLocation".toList)] := ha
      simp only [List.mem_cons, List.not_mem_nil, or_false] at ha2
      subst ha2
      decide

/-- Witness for claim C1 at a concrete read-only request. -/
theorem c1_object_actions_witness :
    (TraceEvent.getFederationToken
        (stsRequest ("read-only".toList) ("mybucket".toList) ("team/".toList)) ∈
      (awsS3Credentials ("read-only".toList) ("mybucket".toList) ("team/".toList) none true
        creds0 ("2026-01-01T00:00:00Z".toList) id).1) ∧
    ((("read-only".toList) = ("read-only".toList) →
      (((stsRequest ("read-only".toList) ("mybucket".toList) ("team/".toList)).Statements.head?).map
        PolicyStatement.Action) = some [("s3:GetObject".toList)]) ∧
    (("read-only".toList) = ("read-write".toList) →
      (((stsRequest ("read-only".toList) ("mybucket".toList) ("team/".toList)).Statements.head?).map
        PolicyStatement.Action) =
        some [("s3:GetObject".toList), ("s3:PutObject".toList), ("s3:DeleteObject".toList)]) ∧
    (∀ s ∈ (stsRequest ("read-only".toList) ("mybucket".toList) ("team/".toList)).Statements,
      ∀ act ∈ s.Action, act ≠ ("s3:PutObjectAcl".toList))) :=
  ⟨List.Mem.tail _ (List.Mem.head _),
   c1_object_actions ("read-only".toList) ("mybucket".toList) ("team/".toList) none true
     creds0 ("2026-01-01T00:00:00Z".toList) id
     (stsRequest ("read-only".toList) ("mybucket".toList) ("team/".toList))
     (List.Mem.tail _ (List.Mem.head _))⟩

/-- Claim C2 counterexample: for the bucket string consisting of the
prefix template token, the object-access resource is not the advertised
concatenation, because the second String.replace call rewrites the copy
of the token contributed by the bucket instead of the template's own. -/
theorem c2_resource_counterexample :
    objectResource ("\x7b\x7bprefix\x7d\x7d".toList) ("p".toList) ≠
      ("arn:aws:s3:::".toList) ++ ("\x7b\x7bprefix\x7d\x7d".toList) ++ ("/".toList) ++
        ("p".toList) ++ ("*".toList) := by decide

/-- Claim C2 (amended): for every bucket containing neither a dollar sign
nor an opening brace and every prefix containing no dollar sign, the
object-access resource is the bucket and prefix concatenation with a
trailing wildcard, the list-access resource is the bucket root alone, and
the list-access condition is the prefix followed by a wildcard. -/
theorem c2_resource_patterns (level bucket pfx : List Char)
    (hb : '$' ∉ bucket) (hbl : Char.ofNat 123 ∉ bucket) (hp : '$' ∉ pfx) :
    (objectAccessStatement level bucket pfx).Resource =
      [("arn:aws:s3:::".toList) ++ bucket ++ ("/".toList) ++ pfx ++ ("*".toList)] ∧
    (listAccessStatement bucket pfx).Resource = [("arn:aws:s3:::".toList) ++ bucket] ∧
    (listAccessStatement bucket pfx).Condition = some [pfx ++ ("*".toList)] := by
  have hb2 : ∀ c ∈ bucket, c ≠ '$' := fun c hc he => hb (he ▸ hc)
  have hbl2 : ∀ c ∈ bucket, c ≠ Char.ofNat 123 := fun c hc he => hbl (he ▸ hc)
  have hp2 : ∀ c ∈ pfx, c ≠ '$' := fun c hc he => hp (he ▸ hc)
  refine ⟨?_, ?_, ?_⟩
  · show [objectResource bucket pfx] = _
    rw [objectResource_eq bucket pfx hb2 hbl2 hp2]
  · show [bucketResource bucket] = _
    rw [bucketResource_eq bucket hb2]
  · show some [listCondition pfx] = _
    rw [listCondition_eq pfx hp2]

/-- Witness for claim C2 at the spec's own example inputs. -/
theorem c2_resource_patterns_witness :
    ('$' ∉ ("mybucket".toList)) ∧ (Char.ofNat 123 ∉ ("mybucket".toList)) ∧
    ('$' ∉ ("team/".toList)) ∧
    ((objectAccessStatement ("read-only".toList) ("mybucket".toList) ("team/".toList)).Resource =
      [("arn:aws:s3:::".toList) ++ ("mybucket".toList) ++ ("/".toList) ++ ("team/".toList) ++
        ("*".toList)] ∧
    (listAccessStatement ("mybucket".toList) ("team/".toList)).Resource =
      [("arn:aws:s3:::".toList) ++ ("mybucket".toList)] ∧
    (listAccessStatement ("mybucket".toList) ("team/".toList)).Condition =
      some [("team/".toList) ++ ("*".toList)]) :=
  ⟨by decide, by decide, by decide,
   c2_resource_patterns ("read-only".toList) ("mybucket".toList) ("team/".toList)
     (by decide) (by decide) (by decide)⟩

/-- Claim C3 counterexample: for the slash-prefixed prefix of the spec's
example, the request does end in an InputError, but the authorizer has
already been invoked by then, contradicting the claimed ordering. -/
theorem c3_order_counterexample :
    (awsS3Credentials ("read-only".toList) ("mybucket".toList) ("/secrets".toList) none true
        creds0 ("2026-01-01T00:00:00Z".toList) id).2 =
      Outcome.inputError (prefixErrorMessage ("/secrets".toList)) ∧
    TraceEvent.authorize
        (authParams ("read-only".toList) ("mybucket".toList) ("/secrets".toList)) ∈
      (awsS3Credentials ("read-only".toList) ("mybucket".toList) ("/secrets".toList) none true
        creds0 ("2026-01-01T00:00:00Z".toList) id).1 :=
  ⟨rfl, List.Mem.head _⟩

/-- Claim C3 (amended): for every authorized request with a valid level and
a prefix that begins with a slash, the request fails with the InputError
quoting the prefix, but only after the single authorizer call, which is
made after level validation and before any policy construction; no
credential exchange happens. -/
theorem c3_slash_prefix_after_authorize (level bucket pfx : List Char)
    (fmt : Option (List Char)) (creds : Credentials) (now : List Char)
    (dj : List Char → List Char)
    (hlevel : level = ("read-write".toList) ∨ level = ("read-only".toList))
    (hpfx : pfx.head? = some '/') :
    awsS3Credentials level bucket pfx fmt true creds now dj =
      ([TraceEvent.authorize (authParams level bucket pfx)],
       Outcome.inputError (prefixErrorMessage pfx)) := by
  have h1 : ¬ (level ≠ ("read-write".toList) ∧ level ≠ ("read-only".toList)) := by
    rcases hlevel with he | he <;> subst he <;> decide
  unfold awsS3Credentials
  rw [if_neg h1, if_neg (by decide : ¬ (true = false)), if_pos hpfx]

/-- Witness for claim C3's amended statement at the spec's example. -/
theorem c3_slash_prefix_after_authorize_witness :
    ((("read-only".toList) = ("read-write".toList)) ∨
      (("read-only".toList) = ("read-only".toList))) ∧
    (("/secrets".toList).head? = some '/') ∧
    awsS3Credentials ("read-only".toList) ("mybucket".toList) ("/secrets".toList) none true
        creds0 ("2026-01-01T00:00:00Z".toList) id =
      ([TraceEvent.authorize
          (authParams ("read-only".toList) ("mybucket".toList) ("/secrets".toList))],
       Outcome.inputError (prefixErrorMessage ("/secrets".toList))) :=
  ⟨by decide, by decide,
   c3_slash_prefix_after_authorize ("read-only".toList) ("mybucket".toList)
     ("/secrets".toList) none creds0 ("2026-01-01T00:00:00Z".toList) id
     (by decide) (by decide)⟩

/-- Claim C4: the required-scope expression declared on the endpoint is
AnyOf the read-only and read-write scopes when the level is read-only and
exactly the read-write scope when the level is read-write, with the bucket
and prefix embedded verbatim in each scope string. -/
theorem c4_required_scopes (bucket pfx : List Char) :
    requiredScopes (levelIsReadOnly ("read-only".toList)) bucket pfx =
      ScopeExpr.anyOf
        [("auth:aws-s3:read-only:".toList) ++ bucket ++ ("/".toList) ++ pfx,
         ("auth:aws-s3:read-write:".toList) ++ bucket ++ ("/".toList) ++ pfx] ∧
    requiredScopes (levelIsReadOnly ("read-write".toList)) bucket pfx =
      ScopeExpr.single (("auth:aws-s3:read-write:".toList) ++ bucket ++ ("/".toList) ++ pfx) :=
  ⟨rfl, rfl⟩

/-- Claim C5: a successful response with format iam-role-compat has exactly
the EC2-metadata top-level keys, with Code Success and Type AWS-HMAC and
no credentials or expires key; without that selector the body is the
native shape with exactly the credentials and expires keys and no Code or
Type key. -/
theorem c5_response_shapes (level bucket pfx : List Char) (fmt : Option (List Char))
    (authOk : Bool) (creds : Credentials) (now : List Char) (dj : List Char → List Char)
    (body : JVal)
    (h : (awsS3Credentials level bucket pfx fmt authOk creds now dj).2 = Outcome.success body) :
    (fmt = some ("iam-role-compat".toList) →
      topKeys body = [("Code".toList), ("Type".toList), ("LastUpdated".toList),
        ("AccessKeyId".toList), ("SecretAccessKey".toList), ("Token".toList),
        ("Expiration".toList)] ∧
      lookupKey ("Code".toList) body = some (JVal.str ("Success".toList)) ∧
      lookupKey ("Type".toList) body = some (JVal.str ("AWS-HMAC".toList)) ∧
      ("credentials".toList) ∉ topKeys body ∧ ("expires".toList) ∉ topKeys body) ∧
    (fmt ≠ some ("iam-role-compat".toList) →
      topKeys body = [("credentials".toList), ("expires".toList)] ∧
      lookupKey ("credentials".toList) body =
        some (JVal.obj
          [(("accessKeyId".toList), JVal.str creds.AccessKeyId),
           (("secretAccessKey".toList), JVal.str creds.SecretAccessKey),
           (("sessionToken".toList), JVal.str creds.SessionToken)]) ∧
      ("Code".toList) ∉ topKeys body ∧ ("Type".toList) ∉ topKeys body) := by
  have hb := run_outcome_success level bucket pfx fmt authOk creds now dj body h
  have ht1 : topKeys (iamRoleCompatBody creds now dj) =
      [("Code".toList), ("Type".toList), ("LastUpdated".toList), ("AccessKeyId".toList),
       ("SecretAccessKey".toList), ("Token".toList), ("Expiration".toList)] := rfl
  have ht2 : topKeys (nativeBody creds dj) = [("credentials".toList), ("expires".toList)] := rfl
  constructor
  · intro hf
    rw [if_pos hf] at hb
    subst hb
    exact ⟨rfl, rfl, rfl, by rw [ht1]; decide, by rw [ht1]; decide⟩
  · intro hf
    rw [if_neg hf] at hb
    subst hb
    exact ⟨rfl, rfl, by rw [ht2]; decide, by rw [ht2]; decide⟩

/-- Witness for claim C5 at a concrete compat-format request. -/
theorem c5_response_shapes_witness :
    ((awsS3Credentials ("read-only".toList) ("mybucket".toList) ("team/".toList)
        (some ("iam-role-compat".toList)) true creds0 ("2026-01-01T00:00:00Z".toList) id).2 =
      Outcome.success (iamRoleCompatBody creds0 ("2026-01-01T00:00:00Z".toList) id)) ∧
    ((some ("iam-role-compat".toList) = some ("iam-role-compat".toList) →
      topKeys (iamRoleCompatBody creds0 ("2026-01-01T00:00:00Z".toList) id) =
        [("Code".toList), ("Type".toList), ("LastUpdated".toList), ("AccessKeyId".toList),
         ("SecretAccessKey".toList), ("Token".toList), ("Expiration".toList)] ∧
      lookupKey ("Code".toList) (iamRoleCompatBody creds0 ("2026-01-01T00:00:00Z".toList) id) =
        some (JVal.str ("Success".toList)) ∧
      lookupKey ("Type".toList) (iamRoleCompatBody creds0 ("2026-01-01T00:00:00Z".toList) id) =
        some (JVal.str ("AWS-HMAC".toList)) ∧
      ("credentials".toList) ∉
        topKeys (iamRoleCompatBody creds0 ("2026-01-01T00:00:00Z".toList) id) ∧
      ("expires".toList) ∉
        topKeys (iamRoleCompatBody creds0 ("2026-01-01T00:00:00Z".toList) id)) ∧
    (some ("iam-role-compat".toList) ≠ some ("iam-role-compat".toList) →
      topKeys (iamRoleCompatBody creds0 ("2026-01-01T00:00:00Z".toList) id) =
        [("credentials".toList), ("expires".toList)] ∧
      lookupKey ("credentials".toList)
          (iamRoleCompatBody creds0 ("2026-01-01T00:00:00Z".toList) id) =
        some (JVal.obj
          [(("accessKeyId".toList), JVal.str creds0.AccessKeyId),
           (("secretAccessKey".toList), JVal.str creds0.SecretAccessKey),
           (("sessionToken".toList), JVal.str creds0.SessionToken)]) ∧
      ("Code".toList) ∉ topKeys (iamRoleCompatBody creds0 ("2026-01-01T00:00:00Z".toList) id) ∧
      ("Type".toList) ∉
        topKeys (iamRoleCompatBody creds0 ("2026-01-01T00:00:00Z".toList) id))) :=
  ⟨rfl,
   c5_response_shapes ("read-only".toList) ("mybucket".toList) ("team/".toList)
     (some ("iam-role-compat".toList)) true creds0 ("2026-01-01T00:00:00Z".toList) id
     (iamRoleCompatBody creds0 ("2026-01-01T00:00:00Z".toList) id) rfl⟩

/-- Claim C6: any format value other than iam-role-compat is ignored: the
whole run, external calls and outcome alike, is the same as with the
format parameter absent, so an unrecognized selector never causes an
error. -/
theorem c6_format_ignored (level bucket pfx : List Char) (fmt : Option (List Char))
    (authOk : Bool) (creds : Credentials) (now : List Char) (dj : List Char → List Char)
    (hfmt : fmt ≠ some ("iam-role-compat".toList)) :
    awsS3Credentials level bucket pfx fmt authOk creds now dj =
      awsS3Credentials level bucket pfx none authOk creds now dj := by
  unfold awsS3Credentials
  rw [if_neg hfmt,
    if_neg (by decide : ¬ ((none : Option (List Char)) = some ("iam-role-compat".toList)))]

/-- Witness for claim C6 at a concrete unrecognized selector. -/
theorem c6_format_ignored_witness :
    (some ("bogus".toList) ≠ some ("iam-role-compat".toList)) ∧
    awsS3Credentials ("read-only".toList) ("mybucket".toList) ("team/".toList)
        (some ("bogus".toList)) true creds0 ("2026-01-01T00:00:00Z".toList) id =
      awsS3Credentials ("read-only".toList) ("mybucket".toList) ("team/".toList) none true
        creds0 ("2026-01-01T00:00:00Z".toList) id :=
  ⟨by decide,
   c6_format_ignored ("read-only".toList) ("mybucket".toList) ("team/".toList)
     (some ("bogus".toList)) true creds0 ("2026-01-01T00:00:00Z".toList) id (by decide)⟩

/-- Claim C7: for every level other than read-only and read-write, the run
makes no external call at all and ends in the InputError naming the
offending value. -/
theorem c7_invalid_level (level bucket pfx : List Char) (fmt : Option (List Char))
    (authOk : Bool) (creds : Credentials) (now : List Char) (dj : List Char → List Char)
    (h1 : level ≠ ("read-write".toList)) (h2 : level ≠ ("read-only".toList)) :
    awsS3Credentials level bucket pfx fmt authOk creds now dj =
      ([], Outcome.inputError
        (("the 'level' URL parameter must be read-only or read-write; got ".toList) ++
          level)) := by
  unfold awsS3Credentials
  rw [if_pos ⟨h1, h2⟩]
  rfl

/-- Witness for claim C7 at the spec's example level value. -/
theorem c7_invalid_level_witness :
    (("delete".toList) ≠ ("read-write".toList)) ∧ (("delete".toList) ≠ ("read-only".toList)) ∧
    awsS3Credentials ("delete".toList) ("mybucket".toList) ("team/".toList) none true creds0
        ("2026-01-01T00:00:00Z".toList) id =
      ([], Outcome.inputError
        (("the 'level' URL parameter must be read-only or read-write; got ".toList) ++
          ("delete".toList))) :=
  ⟨by decide, by decide,
   c7_invalid_level ("delete".toList) ("mybucket".toList) ("team/".toList) none true creds0
     ("2026-01-01T00:00:00Z".toList) id (by decide) (by decide)⟩

/-- Claim C8: every request submitted to the credential exchange carries a
DurationSeconds of exactly 3600, for all request inputs. -/
theorem c8_duration_fixed (level bucket pfx : List Char) (fmt : Option (List Char))
    (authOk : Bool) (creds : Credentials) (now : List Char) (dj : List Char → List Char)
    (r : FederationTokenRequest)
    (h : TraceEvent.getFederationToken r ∈
      (awsS3Credentials level bucket pfx fmt authOk creds now dj).1) :
    r.DurationSeconds = 3600 := by
  obtain ⟨hr, -, -, -⟩ := run_trace_sts level bucket pfx fmt authOk creds now dj r h
  subst hr
  rfl

/-- Witness for claim C8 at a concrete read-write request. -/
theorem c8_duration_fixed_witness :
    (TraceEvent.getFederationToken
        (stsRequest ("read-write".toList) ("mybucket".toList) ("team/".toList)) ∈
      (awsS3Credentials ("read-write".toList) ("mybucket".toList) ("team/".toList) none true
        creds0 ("2026-01-01T00:00:00Z".toList) id).1) ∧
    (stsRequest ("read-write".toList) ("mybucket".toList) ("team/".toList)).DurationSeconds =
      3600 :=
  ⟨List.Mem.tail _ (List.Mem.head _),
   c8_duration_fixed ("read-write".toList) ("mybucket".toList) ("team/".toList) none true
     creds0 ("2026-01-01T00:00:00Z".toList) id
     (stsRequest ("read-write".toList) ("mybucket".toList) ("team/".toList))
     (List.Mem.tail _ (List.Mem.head _))⟩

/-- Claim C9 counterexample: a request whose bucket contains a dot passes
validation, is authorized, reaches the credential exchange and succeeds,
so no dot-free bucket invariant is enforced. -/
theorem c9_dot_bucket_counterexample :
    ('.' ∈ ("my.bucket".toList)) ∧
    (awsS3Credentials ("read-only".toList) ("my.bucket".toList) ("team/".toList) none true
        creds0 ("2026-01-01T00:00:00Z".toList) id).2 =
      Outcome.success (nativeBody creds0 id) ∧
    TraceEvent.authorize
        (authParams ("read-only".toList) ("my.bucket".toList) ("team/".toList)) ∈
      (awsS3Credentials ("read-only".toList) ("my.bucket".toList) ("team/".toList) none true
        creds0 ("2026-01-01T00:00:00Z".toList) id).1 ∧
    TraceEvent.getFederationToken
        (stsRequest ("read-only".toList) ("my.bucket".toList) ("team/".toList)) ∈
      (awsS3Credentials ("read-only".toList) ("my.bucket".toList) ("team/".toList) none true
        creds0 ("2026-01-01T00:00:00Z".toList) id).1 :=
  ⟨by decide, rfl, List.Mem.head _, List.Mem.tail _ (List.Mem.head _)⟩

/-- Claim C9 (amended): the handler never validates the bucket: for every
bucket whatsoever, dots included, an authorized request with a valid level
and a non-slash-leading prefix is authorized and reaches policy
construction and the credential exchange; the dot-free naming rule is only
documentation. -/
theorem c9_no_bucket_validation (level bucket pfx : List Char) (fmt : Option (List Char))
    (creds : Credentials) (now : List Char) (dj : List Char → List Char)
    (hlevel : level = ("read-write".toList) ∨ level = ("read-only".toList))
    (hpfx : ¬ (pfx.head? = some '/')) :
    awsS3Credentials level bucket pfx fmt true creds now dj =
      ([TraceEvent.authorize (authParams level bucket pfx),
        TraceEvent.getFederationToken (stsRequest level bucket pfx)],
       if fmt = some ("iam-role-compat".toList) then
         Outcome.success (iamRoleCompatBody creds now dj)
       else Outcome.success (nativeBody creds dj)) :=
  run_valid_eq level bucket pfx fmt creds now dj hlevel hpfx

/-- Witness for claim C9's amended statement at a dotted bucket. -/
theorem c9_no_bucket_validation_witness :
    ((("read-only".toList) = ("read-write".toList)) ∨
      (("read-only".toList) = ("read-only".toList))) ∧
    (¬ ((("team/".toList).head?) = some '/')) ∧
    awsS3Credentials ("read-only".toList) ("my.bucket".toList) ("team/".toList) none true
        creds0 ("2026-01-01T00:00:00Z".toList) id =
      ([TraceEvent.authorize
          (authParams ("read-only".toList) ("my.bucket".toList) ("team/".toList)),
        TraceEvent.getFederationToken
          (stsRequest ("read-only".toList) ("my.bucket".toList) ("team/".toList))],
       Outcome.success (nativeBody creds0 id)) :=
  ⟨by decide, by decide,
   c9_no_bucket_validation ("read-only".toList) ("my.bucket".toList) ("team/".toList) none
     creds0 ("2026-01-01T00:00:00Z".toList) id (by decide) (by decide)⟩

/-- Claim C10 counterexample: with an empty prefix the request does pass
validation and succeed, but for a bucket containing the prefix template
token the object-access resource is not the advertised bucket slash
wildcard concatenation. -/
theorem c10_template_bucket_counterexample :
    ((awsS3Credentials ("read-only".toList) ("\x7b\x7bprefix\x7d\x7d".toList)
        ([] : List Char) none true creds0 ("2026-01-01T00:00:00Z".toList) id).2 =
      Outcome.success (nativeBody creds0 id)) ∧
    (objectAccessStatement ("read-only".toList) ("\x7b\x7bprefix\x7d\x7d".toList)
        ([] : List Char)).Resource ≠
      [("arn:aws:s3:::".toList) ++ ("\x7b\x7bprefix\x7d\x7d".toList) ++ ("/*".toList)] :=
  ⟨rfl, by decide⟩

/-- Claim C10 (amended): for every valid level and every bucket containing
neither a dollar sign nor an opening brace, a request with the empty
prefix passes validation without InputError and succeeds, and the
object-access resource grants access to every key of the bucket. -/
theorem c10_empty_prefix (level bucket : List Char) (fmt : Option (List Char))
    (creds : Credentials) (now : List Char) (dj : List Char → List Char)
    (hlevel : level = ("read-write".toList) ∨ level = ("read-only".toList))
    (hb : '$' ∉ bucket) (hbl : Char.ofNat 123 ∉ bucket) :
    awsS3Credentials level bucket ([] : List Char) fmt true creds now dj =
      ([TraceEvent.authorize (authParams level bucket ([] : List Char)),
        TraceEvent.getFederationToken (stsRequest level bucket ([] : List Char))],
       if fmt = some ("iam-role-compat".toList) then
         Outcome.success (iamRoleCompatBody creds now dj)
       else Outcome.success (nativeBody creds dj)) ∧
    (objectAccessStatement level bucket ([] : List Char)).Resource =
      [("arn:aws:s3:::".toList) ++ bucket ++ ("/*".toList)] := by
  have hb2 : ∀ c ∈ bucket, c ≠ '$' := fun c hc he => hb (he ▸ hc)
  have hbl2 : ∀ c ∈ bucket, c ≠ Char.ofNat 123 := fun c hc he => hbl (he ▸ hc)
  constructor
  · exact run_valid_eq level bucket ([] : List Char) fmt creds now dj hlevel (by decide)
  · show [objectResource bucket ([] : List Char)] = _
    rw [objectResource_eq bucket ([] : List Char) hb2 hbl2
      (fun c hc => absurd hc (List.not_mem_nil c))]
    simp

/-- Witness for claim C10's amended statement at a concrete bucket. -/
theorem c10_empty_prefix_witness :
    ((("read-only".toList) = ("read-write".toList)) ∨
      (("read-only".toList) = ("read-only".toList))) ∧
    ('$' ∉ ("mybucket".toList)) ∧ (Char.ofNat 123 ∉ ("mybucket".toList)) ∧
    (awsS3Credentials ("read-only".toList) ("mybucket".toList) ([] : List Char) none true
        creds0 ("2026-01-01T00:00:00Z".toList) id =
      ([TraceEvent.authorize (authParams ("read-only".toList) ("mybucket".toList)
          ([] : List Char)),
        TraceEvent.getFederationToken (stsRequest ("read-only".toList) ("mybucket".toList)
          ([] : List Char))],
       Outcome.success (nativeBody creds0 id)) ∧
    (objectAccessStatement ("read-only".toList) ("mybucket".toList)
        ([] : List Char)).Resource =
      [("arn:aws:s3:::".toList) ++ ("mybucket".toList) ++ ("/*".toList)]) :=
  ⟨by decide, by decide, by decide,
   c10_empty_prefix ("read-only".toList) ("mybucket".toList) none creds0
     ("2026-01-01T00:00:00Z".toList) id (by decide) (by decide) (by decide)⟩
